import Mathlib

/-!
Verification of the build-glue scripts of the `circuit-cj` repository.

The repository holds two Python scripts:

* `dependencies.py` — queries a dependency-resolution manifest
  (`module-resolve.json`) to answer "what build artifacts does package X
  depend on" (`package_dependencies`) and "in what order must packages be
  compiled" (`dependency_order`), with a command-line dispatcher that first
  refreshes the manifest by running the external resolver (`cpm update`)
  and reads `module.json`.
* `process.py` — concatenates several source files into one bundle,
  dropping every line that contains the substring "package" or "import".

This file gives a shallow embedding of both scripts.  Printing and process
exit are modelled by returning the list of printed lines together with the
exit status; the script-level side effects (subprocess launch, file reads)
are modelled by an explicit environment and an event trace.
-/

namespace CircuitCJ

/-- `module.json`: an object with at least a `name` field; any further
fields are carried opaquely (the scripts never read them). -/
structure Module where
  name : String
  otherFields : List (String × String)
deriving DecidableEq, Repr

/-- One entry of the `resolves` array of `module-resolve.json`. -/
structure PackageEntry where
  packageName : String
  requires : List String
deriving DecidableEq, Repr

/-- `module-resolve.json`: an object with a `resolves` array. -/
structure ModuleResolve where
  resolves : List PackageEntry
deriving DecidableEq, Repr

/-- The loop body of `package_dependencies` building the output line:
`output = ""`, then for each dependency
`output = output + ("build/" + dependency + ".cjo") + " "`. -/
def depLine (req : List String) : String :=
  req.foldl (fun output dependency => output ++ ("build/" ++ dependency ++ ".cjo") ++ " ") ""

/-- The `for package in module_resolve["resolves"]` scan of
`package_dependencies` (dependencies.py lines 9-18): the first entry whose
`packageName` equals `module_name ++ "/" ++ package_name` prints its
dependency line and exits 0; falling off the loop prints the not-found
message and exits 1.  The result is (printed lines, exit status). -/
def lookupScan (module_name package_name : String) : List PackageEntry → List String × Nat
  | [] => (["Package " ++ module_name ++ "/" ++ package_name ++ " not found"], 1)
  | package :: rest =>
    if package.packageName = module_name ++ "/" ++ package_name then
      ([depLine package.requires], 0)
    else
      lookupScan module_name package_name rest

/-- `package_dependencies` (dependencies.py lines 7-18), as
(printed lines, exit status). -/
def package_dependencies (module_resolve : ModuleResolve) (module : Module)
    (package_name : String) : List String × Nat :=
  lookupScan module.name package_name module_resolve.resolves

/-- `dependency_order` (dependencies.py lines 21-30): collect every
`packageName` in document order, reverse, and print `order[1:]` each
followed by a space; exit 0. -/
def dependency_order (module_resolve : ModuleResolve) : List String × Nat :=
  let order := (module_resolve.resolves.map (fun package => package.packageName)).reverse
  ([(order.drop 1).foldl (fun output dependency => output ++ dependency ++ " ") ""], 0)

/-- The four usage lines printed by `bad_arguments` (dependencies.py
lines 33-41), given `sys.argv[0]`. -/
def usageLines (prog : String) : List String :=
  ["usage: python " ++ prog ++ " mode <module name> <module-resolve.json path> <package>",
   "",
   "    python " ++ prog ++ " --package graphs # Find dependencies of package graphs",
   "    python " ++ prog ++ " --order          # Get the dependency order of the module"]

/-- Observable events of one invocation of the script: launching the
resolver subprocess, opening a file, printing a line to standard output. -/
inductive Event where
  | runCpmUpdate : Event
  | readFile : String → Event
  | printLine : String → Event
deriving DecidableEq, Repr

/-- How an invocation ends: a normal `exit(code)`, or an uncaught Python
exception (runtime error, non-zero process exit with a traceback). -/
inductive Outcome where
  | exited : Nat → Outcome
  | runtimeError : String → Outcome
deriving DecidableEq, Repr

/-- The external world one invocation runs against: whether the `cpm`
binary can be launched, the exit status `cpm update` returns when it runs,
and the parse results of the two manifest files (`none` means the file is
absent or not valid JSON). -/
structure Env where
  cpmLaunches : Bool
  cpmExitCode : Nat
  moduleResolveFile : Option ModuleResolve
  moduleFile : Option Module
deriving DecidableEq, Repr

/-- `bad_arguments` (dependencies.py lines 33-41): print the usage text
and exit 1. -/
def bad_arguments (prog : String) : List Event × Outcome :=
  ((usageLines prog).map Event.printLine, Outcome.exited 1)

/-- `get_module_resolve` (dependencies.py lines 44-48):
`subprocess.run(["cpm", "update"], stdout=DEVNULL)` — which raises only
when the binary cannot be launched and ignores the exit status (no
`check=True`) — then open and parse `module-resolve.json`. -/
def get_module_resolve (env : Env) : List Event × Except String ModuleResolve :=
  if env.cpmLaunches then
    match env.moduleResolveFile with
    | some data => ([Event.runCpmUpdate, Event.readFile "module-resolve.json"], Except.ok data)
    | none => ([Event.runCpmUpdate, Event.readFile "module-resolve.json"],
        Except.error "module-resolve.json absent or not valid JSON")
  else
    ([], Except.error "FileNotFoundError: cpm")

/-- `get_module` (dependencies.py lines 51-54): open and parse
`module.json`. -/
def get_module (env : Env) : List Event × Except String Module :=
  match env.moduleFile with
  | some data => ([Event.readFile "module.json"], Except.ok data)
  | none => ([Event.readFile "module.json"], Except.error "module.json absent or not valid JSON")

/-- The `__main__` block of dependencies.py (lines 57-67): usage check on
argument count, then `get_module_resolve` and `get_module`, then dispatch
on `sys.argv[1]`.  `argv` includes the script name at position 0, as in
Python. -/
def runMain (argv : List String) (env : Env) : List Event × Outcome :=
  if argv.length < 2 then
    bad_arguments (argv.headD "")
  else
    match get_module_resolve env with
    | (tr, Except.error e) => (tr, Outcome.runtimeError e)
    | (tr, Except.ok module_resolve) =>
      match get_module env with
      | (tr2, Except.error e) => (tr ++ tr2, Outcome.runtimeError e)
      | (tr2, Except.ok module) =>
        let trace := tr ++ tr2
        if argv.getD 1 "" = "--package" ∧ argv.length = 3 then
          let result := package_dependencies module_resolve module (argv.getD 2 "")
          (trace ++ result.1.map Event.printLine, Outcome.exited result.2)
        else if argv.getD 1 "" = "--order" ∧ argv.length = 2 then
          let result := dependency_order module_resolve
          (trace ++ result.1.map Event.printLine, Outcome.exited result.2)
        else
          let result := bad_arguments (argv.headD "")
          (trace ++ result.1, result.2)

/-! ## process.py: the bundling script -/

/-- Python's `sub in s` on strings: `sub` occurs as a contiguous substring,
modelled on the character lists. -/
def containsSub (sub : List Char) : List Char → Bool
  | [] => sub.isEmpty
  | c :: cs => sub.isPrefixOf (c :: cs) || containsSub sub cs

/-- The line filter of process.py (line 15):
`if ("package" not in line) and ("import" not in line)`. -/
def keepLine (line : String) : Bool :=
  !(containsSub "package".data line.data) && !(containsSub "import".data line.data)

/-- The opening banner line of process.py (line 8): `/` followed by 61
asterisks. -/
def bannerTop : String :=
  "/" ++ String.mk (List.replicate 61 '*')

/-- The closing banner line of process.py (line 10): a space, 61
asterisks, `/`. -/
def bannerBot : String :=
  " " ++ String.mk (List.replicate 61 '*') ++ "/"

/-- The lines process.py writes for one input file (lines 6-16): a blank
line, the banner naming the file, a blank line, then every line of the
file that passes `keepLine`. -/
def fileSection (name : String) (ls : List String) : List String :=
  ["", bannerTop, " * " ++ name, bannerBot, ""] ++ ls.filter keepLine

/-- The whole bundle process.py writes to `code.cj` (lines 3-16): the
`package code` and `import core.*` headers, then one section per input
file, where each input file is given as (name, its lines). -/
def bundle (files : List (String × List String)) : List String :=
  ["package code", "import core.*"] ++ files.flatMap (fun file => fileSection file.1 file.2)

/-- Refinement counterpart following the spec's words: the spec says the
bundling script strips "package/import declarations", i.e. lines that ARE
package or import declarations — lines opening with the keyword `package`
or `import`. -/
def specIsPackageOrImportDecl (line : String) : Bool :=
  "package".data.isPrefixOf line.data || "import".data.isPrefixOf line.data

/-! ## Whitespace tokenization (used to state the round-trip claim) -/

/-- Split a character list at every space, keeping empty pieces
(the shape of a standard split-on-separator). -/
def splitSp : List Char → List (List Char)
  | [] => [[]]
  | c :: cs =>
    if c = ' ' then [] :: splitSp cs
    else
      match splitSp cs with
      | [] => [[c]]
      | t :: ts => (c :: t) :: ts

/-- The whitespace-separated tokens of a string: split at spaces and drop
the empty pieces. -/
def spaceTokens (s : String) : List String :=
  ((splitSp s.data).filter (fun t => !t.isEmpty)).map String.mk

/-! ## Helper lemmas -/

theorem data_join (ss : List String) :
    (String.join ss).data = (ss.map String.data).flatten := by
  rw [String.join_eq]

theorem join_cons (a : String) (l : List String) :
    String.join (a :: l) = a ++ String.join l := by
  apply String.ext
  simp [data_join]

theorem depLine_go (req : List String) (acc : String) :
    req.foldl (fun output dependency => output ++ ("build/" ++ dependency ++ ".cjo") ++ " ") acc
      = acc ++ String.join (req.map (fun d => "build/" ++ d ++ ".cjo ")) := by
  induction req generalizing acc with
  | nil =>
      rw [List.foldl_nil, List.map_nil, show String.join [] = "" from rfl,
        String.append_empty]
  | cons x xs ih =>
      rw [List.foldl_cons, ih, List.map_cons, join_cons, ← String.append_assoc]
      simp only [String.append_assoc]
      rfl

theorem depLine_eq (req : List String) :
    depLine req = String.join (req.map (fun d => "build/" ++ d ++ ".cjo ")) := by
  rw [depLine, depLine_go, String.empty_append]

theorem orderLine_go (names : List String) (acc : String) :
    names.foldl (fun output dependency => output ++ dependency ++ " ") acc
      = acc ++ String.join (names.map (fun n => n ++ " ")) := by
  induction names generalizing acc with
  | nil =>
      rw [List.foldl_nil, List.map_nil, show String.join [] = "" from rfl,
        String.append_empty]
  | cons x xs ih =>
      rw [List.foldl_cons, ih, List.map_cons, join_cons, ← String.append_assoc]
      simp only [String.append_assoc]

theorem lookupScan_find_some (module_name package_name : String)
    (entries : List PackageEntry) (p : PackageEntry)
    (h : entries.find? (fun e => e.packageName == module_name ++ "/" ++ package_name) = some p) :
    lookupScan module_name package_name entries = ([depLine p.requires], 0) := by
  induction entries with
  | nil => simp [List.find?] at h
  | cons x xs ih =>
      rw [List.find?_cons] at h
      by_cases hx : x.packageName = module_name ++ "/" ++ package_name
      · rw [beq_iff_eq.mpr hx] at h
        have h' : some x = some p := h
        cases Option.some.inj h'
        simp only [lookupScan, if_pos hx]
      · rw [beq_eq_false_iff_ne.mpr hx] at h
        have h' : xs.find? (fun e => e.packageName == module_name ++ "/" ++ package_name)
            = some p := h
        simp only [lookupScan, if_neg hx]
        exact ih h'

theorem lookupScan_not_found (module_name package_name : String)
    (entries : List PackageEntry)
    (h : ∀ e ∈ entries, e.packageName ≠ module_name ++ "/" ++ package_name) :
    lookupScan module_name package_name entries
      = (["Package " ++ module_name ++ "/" ++ package_name ++ " not found"], 1) := by
  induction entries with
  | nil => rfl
  | cons x xs ih =>
      simp only [lookupScan, if_neg (h x (List.mem_cons_self x xs))]
      exact ih (fun e he => h e (List.mem_cons_of_mem x he))

/-! ## Claim theorems -/

/-- C1: when the resolution document has an entry whose `packageName` is
`<module.name>/<packageLocalName>`, `package_dependencies` prints exactly
one line made of the tokens `build/<d>.cjo` each followed by one space,
for the `requires` of the FIRST matching entry in document order, and
exits 0 (an empty `requires` list prints an empty line, since the join of
no pieces is the empty string). -/
theorem package_dependencies_found (module_resolve : ModuleResolve) (module : Module)
    (package_name : String) (p : PackageEntry)
    (h : module_resolve.resolves.find?
        (fun e => e.packageName == module.name ++ "/" ++ package_name) = some p) :
    package_dependencies module_resolve module package_name
      = ([String.join (p.requires.map (fun d => "build/" ++ d ++ ".cjo "))], 0) := by
  rw [package_dependencies, lookupScan_find_some _ _ _ _ h, depLine_eq]

theorem package_dependencies_found_witness :
    package_dependencies ⟨[⟨"m/q", ["z"]⟩, ⟨"m/p", ["x", "y"]⟩]⟩ ⟨"m", []⟩ "p"
      = (["build/x.cjo build/y.cjo "], 0) :=
  (package_dependencies_found ⟨[⟨"m/q", ["z"]⟩, ⟨"m/p", ["x", "y"]⟩]⟩ ⟨"m", []⟩ "p"
    ⟨"m/p", ["x", "y"]⟩ (by decide)).trans (by decide)

/-- C2: `dependency_order` prints one line joining, each followed by one
space, the `packageName`s of the document in reverse document order with
the first element of the reversed list dropped (equivalently, the last
entry of the original document dropped), and exits 0; the empty document
prints an empty line. -/
theorem dependency_order_spec (module_resolve : ModuleResolve) :
    dependency_order module_resolve
      = ([String.join (((module_resolve.resolves.map (fun p => p.packageName)).reverse.drop 1).map
          (fun n => n ++ " "))], 0)
    ∧ (module_resolve.resolves.map (fun p => p.packageName)).reverse.drop 1
        = ((module_resolve.resolves.map (fun p => p.packageName)).dropLast).reverse
    ∧ dependency_order ⟨[]⟩ = ([""], 0) := by
  refine ⟨?_, ?_, rfl⟩
  · simp only [dependency_order]
    rw [orderLine_go, String.empty_append]
  · rw [List.drop_one, List.tail_reverse]

/-- C3 counterexample: on the document whose entries carry the
`packageName`s A, B, C in that order, `dependency_order` does NOT print
`"C B "`; it prints `"B A "` (C, the last entry, is the root that gets
dropped). -/
theorem dependency_order_ABC_cex :
    dependency_order ⟨[⟨"A", []⟩, ⟨"B", []⟩, ⟨"C", []⟩]⟩ ≠ (["C B "], 0)
    ∧ dependency_order ⟨[⟨"A", []⟩, ⟨"B", []⟩, ⟨"C", []⟩]⟩ = (["B A "], 0) := by
  decide

/-- C3 amended: for every document whose entries carry the `packageName`s
A, B, C in that order (whatever their `requires`), `dependency_order`
renders the order line `"B A "`: the root C is dropped and the remaining
names appear reversed, each followed by a space. -/
theorem dependency_order_ABC (r1 r2 r3 : List String) :
    dependency_order ⟨[⟨"A", r1⟩, ⟨"B", r2⟩, ⟨"C", r3⟩]⟩ = (["B A "], 0) := by
  rfl

/-- C4: when no entry's `packageName` equals `<module.name>/<packageLocalName>`,
`package_dependencies` prints exactly the not-found message naming that
fully-qualified key (so no dependency line) and exits 1. -/
theorem package_dependencies_not_found (module_resolve : ModuleResolve) (module : Module)
    (package_name : String)
    (h : ∀ e ∈ module_resolve.resolves,
        e.packageName ≠ module.name ++ "/" ++ package_name) :
    package_dependencies module_resolve module package_name
      = (["Package " ++ module.name ++ "/" ++ package_name ++ " not found"], 1) :=
  lookupScan_not_found _ _ _ h

theorem package_dependencies_not_found_witness :
    package_dependencies ⟨[⟨"m/q", ["x"]⟩]⟩ ⟨"m", []⟩ "p"
      = (["Package m/p not found"], 1) :=
  (package_dependencies_not_found ⟨[⟨"m/q", ["x"]⟩]⟩ ⟨"m", []⟩ "p" (by decide)).trans
    (by decide)

/-- C5 counterexample: the resolver subprocess launching fine but
returning exit status 1 does NOT abort the invocation: `subprocess.run`
is called without `check=True`, so the non-zero status is ignored and
`get_module_resolve` goes on to read and return the manifest. -/
theorem get_module_resolve_nonzero_cex :
    (1 : Nat) ≠ 0
    ∧ get_module_resolve ⟨true, 1, some ⟨[]⟩, none⟩
      = ([Event.runCpmUpdate, Event.readFile "module-resolve.json"], Except.ok ⟨[]⟩) :=
  ⟨by decide, rfl⟩

/-- C5 amended: only a launch failure of the resolver subprocess aborts
`get_module_resolve` with a runtime error (before touching the manifest);
when the subprocess launches, its exit status is ignored and the manifest
is read regardless, the result being the parsed document when the file is
valid and a runtime error otherwise. -/
theorem get_module_resolve_launch (env : Env) :
    (env.cpmLaunches = false →
      get_module_resolve env = ([], Except.error "FileNotFoundError: cpm"))
    ∧ (env.cpmLaunches = true →
      (get_module_resolve env).1
          = [Event.runCpmUpdate, Event.readFile "module-resolve.json"]
      ∧ (get_module_resolve env).2
          = (match env.moduleResolveFile with
             | some data => Except.ok data
             | none => Except.error "module-resolve.json absent or not valid JSON")) := by
  constructor
  · intro h
    simp [get_module_resolve, h]
  · intro h
    cases hm : env.moduleResolveFile <;> simp [get_module_resolve, h, hm]

theorem get_module_resolve_launch_witness :
    get_module_resolve ⟨false, 0, none, none⟩
      = ([], Except.error "FileNotFoundError: cpm") :=
  (get_module_resolve_launch ⟨false, 0, none, none⟩).1 rfl

/-- C7: `package_dependencies` and `dependency_order` are deterministic —
their printed lines and exit status are functions of the document content,
the module's `name` field (no other part of `module.json` matters) and the
package-name string alone. -/
theorem lookup_order_deterministic (mr mr' : ModuleResolve) (m m' : Module)
    (pn pn' : String) (h1 : mr = mr') (h2 : m.name = m'.name) (h3 : pn = pn') :
    package_dependencies mr m pn = package_dependencies mr' m' pn'
    ∧ dependency_order mr = dependency_order mr' := by
  subst h1
  subst h3
  exact ⟨by rw [package_dependencies, package_dependencies, h2], rfl⟩

theorem lookup_order_deterministic_witness :
    package_dependencies ⟨[⟨"m/p", ["x"]⟩]⟩ ⟨"m", []⟩ "p"
      = package_dependencies ⟨[⟨"m/p", ["x"]⟩]⟩ ⟨"m", [("version", "1")]⟩ "p"
    ∧ dependency_order ⟨[⟨"m/p", ["x"]⟩]⟩ = dependency_order ⟨[⟨"m/p", ["x"]⟩]⟩ :=
  lookup_order_deterministic _ _ _ _ _ _ rfl rfl rfl

/-- The argument shapes the `__main__` block of dependencies.py treats as
bad: fewer than two entries in `sys.argv`, or neither `--package` with
exactly one further argument nor `--order` with none. -/
def malformedArgs (argv : List String) : Prop :=
  argv.length < 2
  ∨ (¬(argv.getD 1 "" = "--package" ∧ argv.length = 3)
     ∧ ¬(argv.getD 1 "" = "--order" ∧ argv.length = 2))

/-- C8 counterexample: an invocation with a malformed argument list
(`--bogus`) against a missing `module-resolve.json` aborts with a runtime
error while loading the manifest — no usage text is ever printed (the
trace holds no print event at all), contrary to the claim that every
malformed invocation prints usage text and exits 1. -/
theorem runMain_usage_cex :
    runMain ["prog", "--bogus"] ⟨true, 0, none, none⟩
      = ([Event.runCpmUpdate, Event.readFile "module-resolve.json"],
         Outcome.runtimeError "module-resolve.json absent or not valid JSON")
    ∧ ((runMain ["prog", "--bogus"] ⟨true, 0, none, none⟩).1.filter
        (fun e => match e with | Event.printLine _ => true | _ => false)) = [] :=
  ⟨rfl, rfl⟩

/-- C8 amended: a malformed invocation prints the usage text and exits 1
provided it is the no-argument form (which never touches the loader) or
the resolver launches and both manifest files parse; when at least one
argument is given and the loader fails, the invocation instead aborts
with a runtime error before any usage text. -/
theorem runMain_usage (argv : List String) (env : Env)
    (hbad : malformedArgs argv)
    (hok : argv.length < 2
      ∨ (env.cpmLaunches = true ∧ env.moduleResolveFile ≠ none ∧ env.moduleFile ≠ none)) :
    ∃ pre, runMain argv env
      = (pre ++ (usageLines (argv.headD "")).map Event.printLine, Outcome.exited 1) := by
  by_cases hlt : argv.length < 2
  · refine ⟨[], ?_⟩
    rw [runMain, if_pos hlt, bad_arguments, List.nil_append]
  · have hdisp := hbad.resolve_left hlt
    rcases hok with h | ⟨hc, hmr, hmj⟩
    · exact absurd h hlt
    obtain ⟨mr, hmr'⟩ := Option.ne_none_iff_exists'.mp hmr
    obtain ⟨mj, hmj'⟩ := Option.ne_none_iff_exists'.mp hmj
    refine ⟨[Event.runCpmUpdate, Event.readFile "module-resolve.json",
      Event.readFile "module.json"], ?_⟩
    rw [runMain, if_neg hlt]
    simp only [get_module_resolve, hc, if_true, hmr', get_module, hmj']
    rw [if_neg hdisp.1, if_neg hdisp.2, bad_arguments]
    rfl

theorem runMain_usage_witness :
    ∃ pre, runMain ["prog", "--bogus"] ⟨true, 0, some ⟨[]⟩, some ⟨"m", []⟩⟩
      = (pre ++ (usageLines "prog").map Event.printLine, Outcome.exited 1) :=
  runMain_usage ["prog", "--bogus"] ⟨true, 0, some ⟨[]⟩, some ⟨"m", []⟩⟩
    (Or.inr ⟨by decide, by decide⟩) (Or.inr ⟨rfl, by decide, by decide⟩)

/-- C10: with the loader able to succeed, every invocation carrying at
least one argument — the usage-error ones included — first launches the
resolver subprocess and reads `module-resolve.json` and `module.json`, and
only print events follow those three side effects; the zero-argument
invocation prints the usage text with no side effect at all. -/
theorem side_effects_before_usage (argv : List String) (env : Env)
    (mr : ModuleResolve) (m : Module)
    (hc : env.cpmLaunches = true) (hmr : env.moduleResolveFile = some mr)
    (hm : env.moduleFile = some m) :
    (2 ≤ argv.length →
      ∃ (printed : List String) (out : Outcome), runMain argv env
        = ([Event.runCpmUpdate, Event.readFile "module-resolve.json",
            Event.readFile "module.json"] ++ printed.map Event.printLine, out))
    ∧ (argv.length < 2 →
      runMain argv env
        = ((usageLines (argv.headD "")).map Event.printLine, Outcome.exited 1)) := by
  constructor
  · intro h2
    have hlt : ¬ argv.length < 2 := Nat.not_lt.mpr h2
    rw [runMain, if_neg hlt]
    simp only [get_module_resolve, hc, if_true, hmr, get_module, hm]
    by_cases h1 : argv.getD 1 "" = "--package" ∧ argv.length = 3
    · rw [if_pos h1]
      exact ⟨(package_dependencies mr m (argv.getD 2 "")).1,
        Outcome.exited (package_dependencies mr m (argv.getD 2 "")).2, rfl⟩
    · rw [if_neg h1]
      by_cases h2' : argv.getD 1 "" = "--order" ∧ argv.length = 2
      · rw [if_pos h2']
        exact ⟨(dependency_order mr).1, Outcome.exited (dependency_order mr).2, rfl⟩
      · rw [if_neg h2']
        exact ⟨usageLines (argv.headD ""), Outcome.exited 1, rfl⟩
  · intro hlt
    rw [runMain, if_pos hlt, bad_arguments]

theorem side_effects_before_usage_witness :
    ∃ (printed : List String) (out : Outcome),
      runMain ["prog", "--order"] ⟨true, 0, some ⟨[]⟩, some ⟨"m", []⟩⟩
        = ([Event.runCpmUpdate, Event.readFile "module-resolve.json",
            Event.readFile "module.json"] ++ printed.map Event.printLine, out) :=
  (side_effects_before_usage ["prog", "--order"] ⟨true, 0, some ⟨[]⟩, some ⟨"m", []⟩⟩
    ⟨[]⟩ ⟨"m", []⟩ rfl rfl rfl).1 (by decide)

/-! ## Tokenization lemmas for the round-trip claim -/

theorem splitSp_append_space (t s : List Char) (ht : ∀ c ∈ t, c ≠ ' ') :
    splitSp (t ++ ' ' :: s) = t :: splitSp s := by
  induction t with
  | nil => simp [splitSp]
  | cons c t ih =>
      have hc : c ≠ ' ' := ht c (List.mem_cons_self c t)
      rw [List.cons_append]
      simp only [splitSp, if_neg hc,
        ih (fun x hx => ht x (List.mem_cons_of_mem c hx))]

theorem spaceTokens_flatten (pieces : List (List Char))
    (h : ∀ p ∈ pieces, p ≠ [] ∧ ∀ c ∈ p, c ≠ ' ') :
    (splitSp ((pieces.map (fun p => p ++ [' '])).flatten)).filter (fun t => !t.isEmpty)
      = pieces := by
  induction pieces with
  | nil => rfl
  | cons p ps ih =>
      obtain ⟨hne, hsp⟩ := h p (List.mem_cons_self p ps)
      have hstep : (((p :: ps).map (fun q => q ++ [' '])).flatten : List Char)
          = p ++ ' ' :: ((ps.map (fun q => q ++ [' '])).flatten) := by
        rw [List.map_cons, List.flatten_cons, List.append_assoc]
        rfl
      have hpe : (!p.isEmpty) = true := by
        cases p with
        | nil => exact absurd rfl hne
        | cons a l => rfl
      rw [hstep, splitSp_append_space p _ hsp, List.filter_cons, if_pos hpe,
        ih (fun q hq => h q (List.mem_cons_of_mem p hq))]

theorem build_piece_data (d : String) :
    ("build/" ++ d ++ ".cjo ").data = ("build/" ++ d ++ ".cjo").data ++ [' '] := by
  simp only [String.data_append, List.append_assoc]
  rfl

theorem build_piece_ne_nil (d : String) : ("build/" ++ d ++ ".cjo").data ≠ [] :=
  List.cons_ne_nil _ _

theorem build_piece_no_space (d : String) (hd : ∀ c ∈ d.data, c ≠ ' ') :
    ∀ c ∈ ("build/" ++ d ++ ".cjo").data, c ≠ ' ' := by
  intro c hc
  rw [String.data_append, String.data_append, List.append_assoc, List.mem_append,
    List.mem_append] at hc
  rcases hc with h1 | h2 | h3
  · exact (show ∀ c ∈ "build/".data, c ≠ ' ' by decide) c h1
  · exact hd c h2
  · exact (show ∀ c ∈ ".cjo".data, c ≠ ' ' by decide) c h3

theorem spaceTokens_join (req : List String)
    (h : ∀ d ∈ req, ∀ c ∈ d.data, c ≠ ' ') :
    spaceTokens (String.join (req.map (fun d => "build/" ++ d ++ ".cjo ")))
      = req.map (fun d => "build/" ++ d ++ ".cjo") := by
  have hfun : (String.data ∘ fun d => "build/" ++ d ++ ".cjo ")
      = (fun p => p ++ [' ']) ∘ (fun d => ("build/" ++ d ++ ".cjo").data) :=
    funext fun d => build_piece_data d
  have hdata : (String.join (req.map (fun d => "build/" ++ d ++ ".cjo "))).data
      = ((req.map (fun d => ("build/" ++ d ++ ".cjo").data)).map
          (fun p => p ++ [' '])).flatten := by
    rw [data_join, List.map_map, hfun, ← List.map_map]
  have hpieces : ∀ p ∈ req.map (fun d => ("build/" ++ d ++ ".cjo").data),
      p ≠ [] ∧ ∀ c ∈ p, c ≠ ' ' := by
    intro p hp
    rw [List.mem_map] at hp
    obtain ⟨d, hd, rfl⟩ := hp
    exact ⟨build_piece_ne_nil d, build_piece_no_space d (h d hd)⟩
  have hmk : (String.mk ∘ fun d => ("build/" ++ d ++ ".cjo").data)
      = fun d => "build/" ++ d ++ ".cjo" :=
    funext fun d => rfl
  simp only [spaceTokens]
  rw [hdata, spaceTokens_flatten _ hpieces, List.map_map, hmk]

/-- C6 counterexample: for the document with the single entry
`m/p` requiring the single string `"a b"` (which holds a space), the
output line is `build/a b.cjo `, whose whitespace-separated tokens are
`build/a` and `b.cjo` — neither matches `build/<d>.cjo` for a `<d>` in
`requires`, and the token count is 2, not 1. -/
theorem lookup_tokens_cex :
    ¬ ((∀ t ∈ spaceTokens
          ((package_dependencies ⟨[⟨"m/p", ["a b"]⟩]⟩ ⟨"m", []⟩ "p").1.headD ""),
        ∃ d ∈ (["a b"] : List String), t = "build/" ++ d ++ ".cjo")
      ∧ (spaceTokens
          ((package_dependencies ⟨[⟨"m/p", ["a b"]⟩]⟩ ⟨"m", []⟩ "p").1.headD "")).length
          = (["a b"] : List String).length) := by
  decide

/-- C6 amended: when an entry matches the key and every string in its
`requires` is space-free, every whitespace-separated token of the printed
line is `build/<d>.cjo` for some `<d>` in that entry's `requires`, and the
token count equals the length of `requires`. -/
theorem lookup_tokens_spec (module_resolve : ModuleResolve) (module : Module)
    (package_name : String) (p : PackageEntry)
    (hfind : module_resolve.resolves.find?
        (fun e => e.packageName == module.name ++ "/" ++ package_name) = some p)
    (hsp : ∀ d ∈ p.requires, ∀ c ∈ d.data, c ≠ ' ') :
    (∀ t ∈ spaceTokens
        ((package_dependencies module_resolve module package_name).1.headD ""),
      ∃ d ∈ p.requires, t = "build/" ++ d ++ ".cjo")
    ∧ (spaceTokens
        ((package_dependencies module_resolve module package_name).1.headD "")).length
        = p.requires.length := by
  have hout : package_dependencies module_resolve module package_name
      = ([depLine p.requires], 0) :=
    lookupScan_find_some module.name package_name module_resolve.resolves p hfind
  rw [hout]
  have hred : (([depLine p.requires], 0) : List String × Nat).1.headD ""
      = depLine p.requires := rfl
  rw [hred, depLine_eq, spaceTokens_join p.requires hsp]
  constructor
  · intro t ht
    rw [List.mem_map] at ht
    obtain ⟨d, hd, rfl⟩ := ht
    exact ⟨d, hd, rfl⟩
  · exact List.length_map _ _

theorem lookup_tokens_spec_witness :
    (∀ t ∈ spaceTokens
        ((package_dependencies ⟨[⟨"m/p", ["x", "y"]⟩]⟩ ⟨"m", []⟩ "p").1.headD ""),
      ∃ d ∈ (["x", "y"] : List String), t = "build/" ++ d ++ ".cjo")
    ∧ (spaceTokens
        ((package_dependencies ⟨[⟨"m/p", ["x", "y"]⟩]⟩ ⟨"m", []⟩ "p").1.headD "")).length
        = (["x", "y"] : List String).length :=
  lookup_tokens_spec ⟨[⟨"m/p", ["x", "y"]⟩]⟩ ⟨"m", []⟩ "p" ⟨"m/p", ["x", "y"]⟩
    (by decide) (by decide)

/-- C9 counterexample: the line `let importance = 1` is neither a package
declaration nor an import declaration, yet the bundling script omits it —
its filter drops every line CONTAINING the substring `package` or
`import`, not just declaration lines. -/
theorem bundle_strips_nondeclaration_cex :
    keepLine "let importance = 1" = false
    ∧ specIsPackageOrImportDecl "let importance = 1" = false
    ∧ "let importance = 1" ∉ bundle [("f", ["let importance = 1"])] := by
  decide

/-- C9 amended: the body of each input file's section in the bundle is a
sublist of that file's lines (every kept line is copied unchanged and in
order), and a line of the file appears in the body exactly when it
contains neither the substring `package` nor the substring `import`. -/
theorem bundle_filter_spec (name : String) (ls : List String) :
    ((fileSection name ls).drop 5).Sublist ls
    ∧ ∀ line, line ∈ (fileSection name ls).drop 5
        ↔ line ∈ ls ∧ containsSub "package".data line.data = false
            ∧ containsSub "import".data line.data = false := by
  have hdrop : (fileSection name ls).drop 5 = ls.filter keepLine := rfl
  rw [hdrop]
  refine ⟨List.filter_sublist ls, fun line => ?_⟩
  rw [List.mem_filter]
  simp [keepLine, Bool.and_eq_true, Bool.not_eq_true', and_assoc]

theorem bundle_filter_spec_witness :
    ("code line" ∈ (fileSection "f" ["import core.*", "code line"]).drop 5
        ↔ "code line" ∈ ["import core.*", "code line"]
          ∧ containsSub "package".data "code line".data = false
          ∧ containsSub "import".data "code line".data = false)
    ∧ ("import core.*" ∈ (fileSection "f" ["import core.*", "code line"]).drop 5
        ↔ "import core.*" ∈ ["import core.*", "code line"]
          ∧ containsSub "package".data "import core.*".data = false
          ∧ containsSub "import".data "import core.*".data = false) :=
  ⟨(bundle_filter_spec "f" ["import core.*", "code line"]).2 "code line",
   (bundle_filter_spec "f" ["import core.*", "code line"]).2 "import core.*"⟩

end CircuitCJ
